import Mathlib

/-!
Verification of the dependency-confusion checker (`src/main.py`) against its
natural-language specification.

The program scans a mapping from package names to optionally-known installed
version strings, looks each name up on a registry, parses both version strings
and flags a package when its local version is strictly greater than the
registry version.  The scan loop, the classification of each package and the
exit-code mapping are embedded below from `main` in `src/main.py`; the
registry-response processing is embedded from `check_package_availability`.
Version parsing and comparison are delegated by the source to the external
`packaging` library, whose code is not part of this repository, so the
Version Model is modelled from §4.1 of the specification.
-/

/-! ## Version Model (spec §4.1) -/

/-- Decimal value of a list of digit characters, most significant first. -/
def digitsToNat (ds : List Char) : Nat :=
  ds.foldl (fun n c => n * 10 + (c.toNat - 48)) 0

/-- Split a character list into the segments between `.` delimiters.
Always returns at least one (possibly empty) segment. -/
def splitDots : List Char → List (List Char)
  | [] => [[]]
  | c :: cs =>
    match splitDots cs with
    | [] => [[]]
    | seg :: rest => if c = '.' then [] :: seg :: rest else (c :: seg) :: rest

/-- Modelled from the spec: a parsed version, §3 "Version" — an ordered
sequence of numeric release segments plus an optional pre-release qualifier,
itself an (alphabetic-tag, numeric-suffix) pair.  The source delegates this
to the external `packaging` library, which is not in the repository. -/
structure PVersion where
  release : List Nat
  qual : Option (List Char × Nat)
deriving DecidableEq, Repr

/-- Modelled from the spec: decompose a qualifier remainder into its
alphabetic tag and numeric suffix (§4.1: qualifiers compare "lexicographically
by (alphabetic-tag, numeric-suffix) pairs"). -/
def parseQual (cs : List Char) : Option (List Char × Nat) :=
  let tag := cs.takeWhile (·.isAlpha)
  let rest := cs.dropWhile (·.isAlpha)
  if tag.isEmpty then none
  else if rest.all (·.isDigit) then some (tag, digitsToNat rest) else none

/-- Modelled from the spec: fold the dot-separated segments of a version
string into release segments; a purely numeric segment is an integer release
segment, otherwise its leading numeric run is the final release segment and
the remainder forms the qualifier (§4.1). -/
def parseSegs : List (List Char) → Option (List Nat × Option (List Char × Nat))
  | [] => some ([], none)
  | seg :: rest =>
    if seg ≠ [] ∧ seg.all (·.isDigit) then
      match parseSegs rest with
      | some (ns, q) => some (digitsToNat seg :: ns, q)
      | none => none
    else
      let ds := seg.takeWhile (·.isDigit)
      let qs := seg.dropWhile (·.isDigit)
      if ds.isEmpty then none
      else if rest.isEmpty then
        match parseQual qs with
        | some q => some ([digitsToNat ds], some q)
        | none => none
      else none

/-- Modelled from the spec: `parse(raw) → Version | ParseFailure` (§4.1);
`none` is the ParseFailure outcome.  Any input without at least one leading
numeric segment fails; the empty string fails. -/
def parseVersion (s : String) : Option PVersion :=
  match parseSegs (splitDots s.data) with
  | some ([], _) => none
  | some (r, q) => some ⟨r, q⟩
  | none => none

/-- Compare a zero-padded prefix against the remaining right-hand segments:
what is left of the right-hand version once the left-hand one is exhausted. -/
def cmpZeros : List Nat → Ordering
  | [] => .eq
  | b :: bs => (compare 0 b).then (cmpZeros bs)

/-- Compare two release-segment sequences pairwise left to right, padding the
shorter one with zeros (§4.1 comparison algorithm). -/
def cmpRel : List Nat → List Nat → Ordering
  | [], bs => cmpZeros bs
  | a :: as, [] => (compare a 0).then (cmpRel as [])
  | a :: as, b :: bs => (compare a b).then (cmpRel as bs)

/-- Lexicographic comparison of character lists by code point. -/
def cmpChars : List Char → List Char → Ordering
  | [], [] => .eq
  | [], _ :: _ => .lt
  | _ :: _, [] => .gt
  | a :: as, b :: bs => (compare a.toNat b.toNat).then (cmpChars as bs)

/-- Compare optional qualifiers: no qualifier is strictly greater than any
pre-release qualifier; two qualifiers compare lexicographically by
(alphabetic-tag, numeric-suffix) (§4.1). -/
def cmpQual : Option (List Char × Nat) → Option (List Char × Nat) → Ordering
  | none, none => .eq
  | none, some _ => .gt
  | some _, none => .lt
  | some (t1, n1), some (t2, n2) => (cmpChars t1 t2).then (compare n1 n2)

/-- Modelled from the spec: the total order on parsed versions (§4.1):
release segments decide first, qualifiers break ties. -/
def vcmp (a b : PVersion) : Ordering :=
  (cmpRel a.release b.release).then (cmpQual a.qual b.qual)

/-! ## Registry lookup (`check_package_availability`, `src/main.py` lines 41-89) -/

/-- Does the pattern occur as a prefix of the character list? -/
def startsWithChars : List Char → List Char → Bool
  | [], _ => true
  | _ :: _, [] => false
  | p :: ps, c :: cs => p = c && startsWithChars ps cs

/-- Does the pattern occur as a contiguous substring of the character list?
Embeds Python's `"Latest version" in line` membership test. -/
def containsChars (pat : List Char) : List Char → Bool
  | [] => startsWithChars pat []
  | c :: cs => startsWithChars pat (c :: cs) || containsChars pat cs

/-- Split a character list into the parts between `:` delimiters, embedding
Python's `line.split(":")`: always at least one part, empties kept. -/
def splitColons : List Char → List (List Char)
  | [] => [[]]
  | c :: cs =>
    match splitColons cs with
    | [] => [[]]
    | seg :: rest => if c = ':' then [] :: seg :: rest else (c :: seg) :: rest

/-- Strip leading and trailing whitespace, embedding Python's `str.strip()`. -/
def stripChars (cs : List Char) : List Char :=
  ((cs.dropWhile (·.isWhitespace)).reverse.dropWhile (·.isWhitespace)).reverse

/-- The loop of `check_package_availability` (lines 75-80 of `src/main.py`):
the first line containing "Latest version" and at least one `:` yields the
stripped text after the first `:`; otherwise the scan of lines continues, and
falls through to `None` once the lines are exhausted. -/
def extractLatest : List String → Option String
  | [] => none
  | line :: rest =>
    if containsChars "Latest version".data line.data then
      match splitColons line.data with
      | _ :: second :: _ => some (String.mk (stripChars second))
      | _ => extractLatest rest
    else extractLatest rest

/-- A completed `pip index versions` subprocess: whether it exited with
status zero, and its standard output split into lines (an empty list iff the
output string was empty). -/
structure CmdResult where
  exitZero : Bool
  stdoutLines : List String
deriving Repr

/-- The tri-state result the scan loop observes from a lookup: the version
string extracted from the command output, `notPresent` when the function
returns `None`, and `error` when it raises (`CalledProcessError` re-raised at
line 86 of `src/main.py`, or any other exception re-raised at line 89). -/
inductive LookupOutcome where
  | notPresent
  | version (v : String)
  | error
deriving DecidableEq, Repr

/-- `check_package_availability` (lines 56-89 of `src/main.py`): a non-zero
command exit raises (modelled as `error`); on success, a non-empty output is
scanned for a "Latest version" line, yielding that version or `None`
(`notPresent`) when no line matches; an empty output yields `None` after a
warning log. -/
def check_package_availability (res : CmdResult) : LookupOutcome :=
  if res.exitZero = false then .error
  else if res.stdoutLines ≠ [] then
    match extractLatest res.stdoutLines with
    | some v => .version v
    | none => .notPresent
  else .notPresent

/-! ## Scan loop and exit mapping (`main`, `src/main.py` lines 110-169) -/

/-- The terminal classification of one package, read off the branches of the
scan loop (lines 130-157 of `src/main.py`): the not-found log at line 136,
the vulnerable append at line 146, the up-to-date log at line 152, the
version-parse exception caught at line 156 and the `CalledProcessError`
caught at line 154. -/
inductive Outcome where
  | notOnRegistry
  | confused
  | upToDate
  | unparseable
  | lookupFailed
deriving DecidableEq, Repr

/-- One iteration of the scan loop (lines 130-157 of `src/main.py`) for a
package with optional installed version string `installed` and lookup result
`lr`.  A raising lookup is caught at line 154/156.  `installed_version_obj`
is `None` when `installed` is absent or empty (Python truthiness at line
138); a version-parse failure raises and is caught at line 156.  The package
is vulnerable (line 146) exactly when both versions parse and the local one
is strictly greater. -/
def processPackage (installed : Option String) (lr : LookupOutcome) : Outcome :=
  match lr with
  | .error => .lookupFailed
  | .notPresent => .notOnRegistry
  | .version pv =>
    match (match installed with
           | none => none
           | some iv => if iv = "" then none else some iv) with
    | none =>
      match parseVersion pv with
      | none => .unparseable
      | some _ => .upToDate
    | some iv =>
      match parseVersion iv, parseVersion pv with
      | none, _ => .unparseable
      | some _, none => .unparseable
      | some a, some b => if vcmp a b = .gt then .confused else .upToDate

/-- The full scan loop: one outcome per target, in target order. -/
def runScan (targets : List (String × Option String))
    (lookup : String → LookupOutcome) : List (String × Outcome) :=
  targets.map (fun t => (t.1, processPackage t.2 (lookup t.1)))

/-- The `vulnerable_packages` accumulator (lines 128 and 146 of
`src/main.py`): the names of the packages classified `confused`. -/
def vulnerablePackages (report : List (String × Outcome)) : List String :=
  (report.filter (fun e => decide (e.2 = .confused))).map (fun e => e.1)

/-- The report-level vulnerability flag: some package is classified
`confused`, i.e. the vulnerable list is non-empty (line 159). -/
def hasVulnerabilities (report : List (String × Outcome)) : Bool :=
  report.any (fun e => decide (e.2 = .confused))

/-- `main` after argument handling (lines 124-169 of `src/main.py`): an empty
target set exits 0 at line 126; otherwise the scan runs and the process exits
1 when `vulnerable_packages` is non-empty (line 166) and 0 otherwise
(line 169). -/
def mainRun (targets : List (String × Option String))
    (lookup : String → LookupOutcome) : Nat :=
  if targets.isEmpty then 0
  else if (vulnerablePackages (runScan targets lookup)).isEmpty then 0 else 1

/-- The single-package target set built at line 120 of `src/main.py`:
`{args.package: None}`. -/
def singlePackageTargets (name : String) : List (String × Option String) :=
  [(name, none)]

/-! ## Order-theoretic lemmas about the version comparison -/

theorem ordThen_swap (a b : Ordering) : (a.then b).swap = a.swap.then b.swap := by
  cases a <;> cases b <;> rfl

theorem cmpZeros_swap (bs : List Nat) : (cmpZeros bs).swap = cmpRel bs [] := by
  induction bs with
  | nil => rfl
  | cons b bs ih =>
    show ((compare 0 b).then (cmpZeros bs)).swap = (compare b 0).then (cmpRel bs [])
    rw [ordThen_swap, Nat.compare_swap, ih]

theorem cmpRel_swap (a : List Nat) : ∀ b, (cmpRel a b).swap = cmpRel b a := by
  induction a with
  | nil =>
    intro b
    show (cmpZeros b).swap = cmpRel b []
    exact cmpZeros_swap b
  | cons x xs ih =>
    intro b
    cases b with
    | nil =>
      show ((compare x 0).then (cmpRel xs [])).swap = cmpZeros (x :: xs)
      rw [ordThen_swap, Nat.compare_swap, ih []]
      rfl
    | cons y ys =>
      show ((compare x y).then (cmpRel xs ys)).swap = (compare y x).then (cmpRel ys xs)
      rw [ordThen_swap, Nat.compare_swap, ih ys]

theorem cmpChars_swap (a : List Char) : ∀ b, (cmpChars a b).swap = cmpChars b a := by
  induction a with
  | nil => intro b; cases b <;> rfl
  | cons x xs ih =>
    intro b
    cases b with
    | nil => rfl
    | cons y ys =>
      show ((compare x.toNat y.toNat).then (cmpChars xs ys)).swap
          = (compare y.toNat x.toNat).then (cmpChars ys xs)
      rw [ordThen_swap, Nat.compare_swap, ih ys]

theorem cmpQual_swap (a b : Option (List Char × Nat)) :
    (cmpQual a b).swap = cmpQual b a := by
  match a, b with
  | none, none => rfl
  | none, some _ => rfl
  | some _, none => rfl
  | some (t1, n1), some (t2, n2) =>
    show ((cmpChars t1 t2).then (compare n1 n2)).swap
        = (cmpChars t2 t1).then (compare n2 n1)
    rw [ordThen_swap, Nat.compare_swap, cmpChars_swap]

theorem vcmp_swap (a b : PVersion) : (vcmp a b).swap = vcmp b a := by
  show ((cmpRel a.release b.release).then (cmpQual a.qual b.qual)).swap = _
  rw [ordThen_swap, cmpRel_swap, cmpQual_swap]
  rfl

theorem vcmp_gt_iff (a b : PVersion) : vcmp a b = .gt ↔ vcmp b a = .lt := by
  rw [← vcmp_swap a b]
  cases hv : vcmp a b <;> simp [Ordering.swap]

theorem cmpRel_refl (l : List Nat) : cmpRel l l = .eq := by
  induction l with
  | nil => rfl
  | cons x xs ih =>
    show (compare x x).then (cmpRel xs xs) = .eq
    rw [Nat.compare_eq_eq.mpr rfl, ih]
    rfl

/-! ## Helper lemmas about the scan -/

theorem hasVulnerabilities_iff (report : List (String × Outcome)) :
    hasVulnerabilities report = true ↔ ∃ e ∈ report, e.2 = Outcome.confused := by
  simp [hasVulnerabilities]

theorem vulnerablePackages_eq_nil (report : List (String × Outcome)) :
    vulnerablePackages report = [] ↔ ∀ e ∈ report, e.2 ≠ Outcome.confused := by
  simp [vulnerablePackages, List.map_eq_nil_iff, List.filter_eq_nil_iff]

theorem processPackage_version_some (iv pv : String) (hne : iv ≠ "")
    (a b : PVersion) (hiv : parseVersion iv = some a) (hpv : parseVersion pv = some b) :
    processPackage (some iv) (.version pv)
      = if vcmp a b = .gt then Outcome.confused else Outcome.upToDate := by
  simp [processPackage, hne, hiv, hpv]

theorem processPackage_none_ne_confused (lr : LookupOutcome) :
    processPackage none lr ≠ Outcome.confused := by
  cases lr with
  | error => simp [processPackage]
  | notPresent => simp [processPackage]
  | version pv => cases h : parseVersion pv <;> simp [processPackage, h]

/-! ## The claims -/

/-- Claim C1: for every package whose registry lookup succeeds with a present,
parseable registry version and whose local version is present and parseable,
the outcome is Confused if and only if the local version is strictly greater
than the registry version under the version total order (otherwise UpToDate),
and the report's hasVulnerabilities is true iff at least one package's
outcome is Confused. -/
theorem claim1_confused_iff_greater (iv pv : String) (a b : PVersion)
    (hiv : parseVersion iv = some a) (hpv : parseVersion pv = some b) :
    (processPackage (some iv) (.version pv) = Outcome.confused ↔ vcmp a b = .gt) ∧
    (processPackage (some iv) (.version pv) = Outcome.upToDate ↔ ¬ vcmp a b = .gt) ∧
    (∀ report : List (String × Outcome),
      hasVulnerabilities report = true ↔ ∃ e ∈ report, e.2 = Outcome.confused) := by
  have hne : iv ≠ "" := by
    intro h
    rw [h] at hiv
    exact Option.noConfusion hiv
  rw [processPackage_version_some iv pv hne a b hiv hpv]
  refine ⟨?_, ?_, hasVulnerabilities_iff⟩
  · by_cases hg : vcmp a b = .gt <;> simp [hg]
  · by_cases hg : vcmp a b = .gt <;> simp [hg]

theorem claim1_witness :
    processPackage (some "2.0.0") (LookupOutcome.version "1.5.0") = Outcome.confused ∧
    hasVulnerabilities [("foo", Outcome.confused)] = true := by
  have h := claim1_confused_iff_greater "2.0.0" "1.5.0" ⟨[2, 0, 0], none⟩
      ⟨[1, 5, 0], none⟩ (by decide) (by decide)
  exact ⟨h.1.mpr (by decide), (h.2.2 [("foo", Outcome.confused)]).mpr (by simp)⟩

/-- Claim C2 counterexample: the claim says a package present on the registry
whose local version is unknown (absent) is classified Unparseable and never
UpToDate; but the scan loop, with no installed version and registry version
"1.0.0", takes the up-to-date branch (line 152 of `src/main.py`). -/
theorem claim2_counterexample :
    processPackage none (LookupOutcome.version "1.0.0") = Outcome.upToDate ∧
    Outcome.upToDate ≠ Outcome.unparseable := ⟨by decide, by decide⟩

/-- Claim C2 (amended): for every package present on the registry, if the
local version string is present (and non-empty) and either it or the registry
version string fails to parse, the outcome is Unparseable and in particular
never UpToDate; when the local version is absent, the registry parse failure
still yields Unparseable, but a parseable registry version yields UpToDate. -/
theorem claim2_amended (pv : String) :
    (∀ iv : String, iv ≠ "" →
      (parseVersion iv = none ∨ parseVersion pv = none) →
      processPackage (some iv) (.version pv) = Outcome.unparseable) ∧
    (∀ iv : String, iv ≠ "" →
      (parseVersion iv = none ∨ parseVersion pv = none) →
      processPackage (some iv) (.version pv) ≠ Outcome.upToDate) ∧
    (parseVersion pv = none → processPackage none (.version pv) = Outcome.unparseable) ∧
    (∀ b, parseVersion pv = some b → processPackage none (.version pv) = Outcome.upToDate) := by
  have key : ∀ iv : String, iv ≠ "" →
      (parseVersion iv = none ∨ parseVersion pv = none) →
      processPackage (some iv) (.version pv) = Outcome.unparseable := by
    intro iv hne hor
    cases hiv : parseVersion iv with
    | none => simp [processPackage, hne, hiv]
    | some a =>
      cases hpv : parseVersion pv with
      | none => simp [processPackage, hne, hiv, hpv]
      | some b =>
        rcases hor with h | h
        · rw [hiv] at h; exact Option.noConfusion h
        · rw [hpv] at h; exact Option.noConfusion h
  refine ⟨key, ?_, ?_, ?_⟩
  · intro iv hne hor
    rw [key iv hne hor]
    simp
  · intro hpv
    simp [processPackage, hpv]
  · intro b hb
    simp [processPackage, hb]

theorem claim2_witness :
    processPackage (some "not-a-version") (LookupOutcome.version "1.0.0")
      = Outcome.unparseable :=
  (claim2_amended "1.0.0").1 "not-a-version" (by decide) (Or.inl (by decide))

/-- Claim C3: for every completed scan, the process exit status is 0 when the
report contains zero Confused outcomes and 1 when it contains at least one
Confused outcome, regardless of how many NotOnRegistry or Unparseable entries
the report contains. -/
theorem claim3_exit_mapping (targets : List (String × Option String))
    (lookup : String → LookupOutcome) :
    (mainRun targets lookup = 0 ↔
      ∀ e ∈ runScan targets lookup, e.2 ≠ Outcome.confused) ∧
    (mainRun targets lookup = 1 ↔
      ∃ e ∈ runScan targets lookup, e.2 = Outcome.confused) := by
  cases targets with
  | nil => simp [mainRun, runScan]
  | cons t ts =>
    have hdef : mainRun (t :: ts) lookup
        = if (vulnerablePackages (runScan (t :: ts) lookup)).isEmpty then 0 else 1 := rfl
    by_cases h : ∀ e ∈ runScan (t :: ts) lookup, e.2 ≠ Outcome.confused
    · have hnil : vulnerablePackages (runScan (t :: ts) lookup) = [] :=
        (vulnerablePackages_eq_nil _).mpr h
      rw [hdef, hnil]
      constructor
      · exact ⟨fun _ => h, fun _ => rfl⟩
      · constructor
        · intro h1
          exact absurd h1 (by decide)
        · rintro ⟨e, he, hc⟩
          exact absurd hc (h e he)
    · have hne : ¬ vulnerablePackages (runScan (t :: ts) lookup) = [] := by
        intro hq
        exact h ((vulnerablePackages_eq_nil _).mp hq)
      have hval : (vulnerablePackages (runScan (t :: ts) lookup)).isEmpty = false := by
        cases hv : vulnerablePackages (runScan (t :: ts) lookup) with
        | nil => exact absurd hv hne
        | cons x xs => rfl
      rw [hdef, hval]
      push_neg at h
      obtain ⟨e, he, hc⟩ := h
      constructor
      · constructor
        · intro h1; exact absurd h1 (by decide)
        · intro hall; exact absurd hc (hall e he)
      · exact ⟨fun _ => ⟨e, he, hc⟩, fun _ => rfl⟩

theorem claim3_witness :
    mainRun [("foo", some "2.0.0"), ("bar", some "1.0")]
        (fun n => if n = "foo" then .version "1.5.0" else .notPresent) = 1 :=
  (claim3_exit_mapping [("foo", some "2.0.0"), ("bar", some "1.0")]
      (fun n => if n = "foo" then .version "1.5.0" else .notPresent)).2.mpr
    ⟨("foo", Outcome.confused), by simp [runScan]; decide, rfl⟩

/-- Claim C4: for every package for which the registry reports not present,
the outcome is NotOnRegistry regardless of the local version value, even when
the local version is itself unparseable; this rule takes priority over all
other classifier rules (the not-found branch at line 134 of `src/main.py`
precedes any version parsing). -/
theorem claim4_not_on_registry (installed : Option String) :
    processPackage installed .notPresent = Outcome.notOnRegistry := rfl

/-- Claim C5: for every target set and per-package lookup behaviour, a lookup
error for one package records the outcome LookupFailed for that package and
the scan continues to all remaining packages: the report has one entry per
target, in target order, so a per-package failure never aborts the scan. -/
theorem claim5_lookup_failure_is_local (targets : List (String × Option String))
    (lookup : String → LookupOutcome) :
    ((runScan targets lookup).map Prod.fst = targets.map Prod.fst) ∧
    ((runScan targets lookup).length = targets.length) ∧
    (∀ iv : Option String, processPackage iv .error = Outcome.lookupFailed) ∧
    (∀ n iv, (n, iv) ∈ targets → lookup n = .error →
      (n, Outcome.lookupFailed) ∈ runScan targets lookup) := by
  refine ⟨?_, ?_, fun _ => rfl, ?_⟩
  · simp [runScan]
  · simp [runScan]
  · intro n iv hmem herr
    have hm : (n, processPackage iv (lookup n)) ∈ runScan targets lookup :=
      List.mem_map.mpr ⟨(n, iv), hmem, rfl⟩
    rw [herr] at hm
    exact hm

theorem claim5_witness :
    ("bar", Outcome.lookupFailed) ∈
      runScan [("bar", some "1.0"), ("baz", some "1.0")] (fun _ => LookupOutcome.error) :=
  (claim5_lookup_failure_is_local [("bar", some "1.0"), ("baz", some "1.0")]
      (fun _ => LookupOutcome.error)).2.2.2 "bar" (some "1.0") (by simp) rfl

/-- Claim C6: when the target set is empty, the scan terminates immediately
with a report containing zero entries, hasVulnerabilities false, and a
success exit status. -/
theorem claim6_empty_targets (lookup : String → LookupOutcome) :
    mainRun [] lookup = 0 ∧ runScan [] lookup = [] ∧
      hasVulnerabilities (runScan [] lookup) = false :=
  ⟨rfl, rfl, rfl⟩

theorem vcmp_eq_iff (a b : PVersion) : vcmp a b = .eq ↔ vcmp b a = .eq := by
  rw [← vcmp_swap a b]
  cases hv : vcmp a b <;> simp [Ordering.swap]

/-- Claim C7: version comparison pads the shorter release-segment sequence
with zeros, so parse "1.0" equals parse "1.0.0" and parse "2" is less than
parse "2.0.1"; a version with a pre-release qualifier is strictly less than
the same release segments without one, with qualifiers ordered so that
parse "1.0.0a1" < parse "1.0.0b1" < parse "1.0.0rc1" < parse "1.0.0". -/
theorem claim7_padding_and_prerelease :
    ((parseVersion "1.0").bind (fun a => (parseVersion "1.0.0").map (vcmp a))
      = some .eq) ∧
    ((parseVersion "2").bind (fun a => (parseVersion "2.0.1").map (vcmp a))
      = some .lt) ∧
    ((parseVersion "1.0.0a1").bind (fun a => (parseVersion "1.0.0b1").map (vcmp a))
      = some .lt) ∧
    ((parseVersion "1.0.0b1").bind (fun a => (parseVersion "1.0.0rc1").map (vcmp a))
      = some .lt) ∧
    ((parseVersion "1.0.0rc1").bind (fun a => (parseVersion "1.0.0").map (vcmp a))
      = some .lt) ∧
    (∀ (rel : List Nat) (q : List Char × Nat), vcmp ⟨rel, some q⟩ ⟨rel, none⟩ = .lt) := by
  refine ⟨by decide, by decide, by decide, by decide, by decide, ?_⟩
  intro rel q
  show (cmpRel rel rel).then (cmpQual (some q) none) = .lt
  rw [cmpRel_refl]
  rfl

/-- Claim C8: for all parseable versions A and B, exactly one of A < B,
A = B, A > B holds under the version comparison used by the scan: the
comparison always yields a value, the three outcomes are mutually exclusive,
and A > B holds exactly when B < A, so no pair is incomparable. -/
theorem claim8_comparison_total (s t : String) (a b : PVersion)
    (hs : parseVersion s = some a) (ht : parseVersion t = some b) :
    (vcmp a b = .lt ∨ vcmp a b = .eq ∨ vcmp a b = .gt) ∧
    (¬ (vcmp a b = .lt ∧ vcmp a b = .eq)) ∧
    (¬ (vcmp a b = .eq ∧ vcmp a b = .gt)) ∧
    (¬ (vcmp a b = .lt ∧ vcmp a b = .gt)) ∧
    (vcmp a b = .gt ↔ vcmp b a = .lt) ∧
    (vcmp a b = .eq ↔ vcmp b a = .eq) := by
  refine ⟨?_, ?_, ?_, ?_, vcmp_gt_iff a b, vcmp_eq_iff a b⟩
  · cases hv : vcmp a b
    · exact Or.inl rfl
    · exact Or.inr (Or.inl rfl)
    · exact Or.inr (Or.inr rfl)
  · rintro ⟨h1, h2⟩; rw [h1] at h2; exact Ordering.noConfusion h2
  · rintro ⟨h1, h2⟩; rw [h1] at h2; exact Ordering.noConfusion h2
  · rintro ⟨h1, h2⟩; rw [h1] at h2; exact Ordering.noConfusion h2

theorem claim8_witness :
    vcmp ⟨[1, 0], none⟩ ⟨[2], none⟩ = .lt ∨ vcmp ⟨[1, 0], none⟩ ⟨[2], none⟩ = .eq ∨
      vcmp ⟨[1, 0], none⟩ ⟨[2], none⟩ = .gt :=
  (claim8_comparison_total "1.0" "2" ⟨[1, 0], none⟩ ⟨[2], none⟩
      (by decide) (by decide)).1

/-- Claim C9 counterexample: the claim says a malformed response (non-empty
command output from which no version line can be extracted) is reported as a
lookup error; but `check_package_availability` returns `None` at line 80 of
`src/main.py` for such output, the same value as "not present". -/
theorem claim9_counterexample :
    check_package_availability ⟨true, ["some malformed output"]⟩
        = LookupOutcome.notPresent ∧
    LookupOutcome.notPresent ≠ LookupOutcome.error := ⟨by decide, by decide⟩

/-- Claim C9 (amended): the registry-lookup operation yields exactly one of
three results — not present, a version string, or a lookup error; a lookup
error arises exactly when the command exits non-zero, and a malformed
response (output from which no version line can be extracted) is reported as
"not present", conflated with the absent case. -/
theorem claim9_amended (res : CmdResult) :
    (check_package_availability res = .error ∨
      (∃ v, check_package_availability res = .version v) ∨
      check_package_availability res = .notPresent) ∧
    (check_package_availability res = .error ↔ res.exitZero = false) ∧
    (res.exitZero = true → extractLatest res.stdoutLines = none →
      check_package_availability res = .notPresent) := by
  obtain ⟨ez, lines⟩ := res
  cases ez with
  | false => simp [check_package_availability]
  | true =>
    cases lines with
    | nil => simp [check_package_availability, extractLatest]
    | cons l ls =>
      cases hx : extractLatest (l :: ls) with
      | none => simp [check_package_availability, hx]
      | some v => simp [check_package_availability, hx]

theorem claim9_witness :
    check_package_availability ⟨true, []⟩ = LookupOutcome.notPresent :=
  (claim9_amended ⟨true, []⟩).2.2 rfl rfl

/-- Claim C10: in single-package mode the target's local version is always
absent, so for every package name and every registry response no package is
ever added to the vulnerable list — the outcome is never Confused and the
process exits with status 0. -/
theorem claim10_single_package_never_confused (name : String)
    (lookup : String → LookupOutcome) :
    (∀ e ∈ runScan (singlePackageTargets name) lookup, e.2 ≠ Outcome.confused) ∧
    vulnerablePackages (runScan (singlePackageTargets name) lookup) = [] ∧
    mainRun (singlePackageTargets name) lookup = 0 := by
  have hall : ∀ e ∈ runScan (singlePackageTargets name) lookup,
      e.2 ≠ Outcome.confused := by
    intro e he
    simp only [runScan, singlePackageTargets, List.map_cons, List.map_nil,
      List.mem_singleton] at he
    rw [he]
    exact processPackage_none_ne_confused (lookup name)
  have hnil : vulnerablePackages (runScan (singlePackageTargets name) lookup) = [] :=
    (vulnerablePackages_eq_nil _).mpr hall
  have hm : mainRun (singlePackageTargets name) lookup
      = if (vulnerablePackages (runScan (singlePackageTargets name) lookup)).isEmpty
          then 0 else 1 := rfl
  refine ⟨hall, hnil, ?_⟩
  rw [hm, hnil]
  rfl

theorem claim10_witness :
    mainRun (singlePackageTargets "foo") (fun _ => LookupOutcome.version "9.9.9") = 0 :=
  (claim10_single_package_never_confused "foo"
      (fun _ => LookupOutcome.version "9.9.9")).2.2
